import Mathlib

/-
Verification of the bun-hono-restful-api contact-management service.

The repository is a Hono (TypeScript) HTTP API: user registration / login /
token authentication, and CRUD plus paginated search over contacts scoped
to the authenticated user.  `src/controller/user-controller.ts` is the
route wiring that is present in the source tree; the service layer
(`UserService`, `ContactService`), the auth middleware and the Zod
validation schemas are exercised only through the controller and the test
suite, so those parts are modelled from the specification, as marked on
each definition.

The embedding is a pure state-passing one: the database is an `AppState`
(a list of user rows and a list of contact rows), every endpoint is a
function from request and state to a response and a new state, and the
uniform `{data} / {errors}` envelope is the `Response` type.
-/

namespace BunHono

/-- A stored user row: unique username, display name, password hash, and a
nullable session token (issued on login, cleared on logout). -/
structure User where
  username : String
  name : String
  password : String
  token : Option String
deriving Repr, DecidableEq

/-- A stored contact row, owned by exactly one user via `username`.
`first_name` is required; the other three fields are nullable. -/
structure Contact where
  id : Nat
  first_name : String
  last_name : Option String
  email : Option String
  phone : Option String
  username : String
deriving Repr, DecidableEq

/-- The persistent store: user rows, contact rows, and the contact
auto-increment counter. -/
structure AppState where
  users : List User
  contacts : List Contact
  nextContactId : Nat
deriving Repr, DecidableEq

/-- A domain error carrying the HTTP status it renders with. -/
structure ApiError where
  status : Nat
  message : String
deriving Repr, DecidableEq

/-- Paging metadata `{current_page, size, total_page}` returned by search. -/
structure Paging where
  current_page : Nat
  size : Nat
  total_page : Nat
deriving Repr, DecidableEq

/-- The `{username, name}` body of a user response (`toUserResponse`). -/
structure UserResponse where
  username : String
  name : String
deriving Repr, DecidableEq

/-- The login response body, which additionally carries the issued token. -/
structure LoginResponse where
  username : String
  name : String
  token : String
deriving Repr, DecidableEq

/-- The contact response body: the row without its owner column. -/
structure ContactResponse where
  id : Nat
  first_name : String
  last_name : Option String
  email : Option String
  phone : Option String
deriving Repr, DecidableEq

/-- Body of `POST /api/users`. -/
structure RegisterUserRequest where
  username : String
  password : String
  name : String
deriving Repr, DecidableEq

/-- Body of `POST /api/users/login`. -/
structure LoginUserRequest where
  username : String
  password : String
deriving Repr, DecidableEq

/-- Body of `PATCH /api/users/current`: partial, both fields optional. -/
structure UpdateUserRequest where
  name : Option String
  password : Option String
deriving Repr, DecidableEq

/-- Body of `POST /api/contacts` / `PUT /api/contacts/{id}`. -/
structure CreateContactRequest where
  first_name : String
  last_name : Option String
  email : Option String
  phone : Option String
deriving Repr, DecidableEq

/-- Query of `GET /api/contacts` after defaulting: `page` defaults to 1 and
`size` to 10. -/
structure SearchContactRequest where
  name : Option String
  email : Option String
  phone : Option String
  page : Nat
  size : Nat
deriving Repr, DecidableEq

/-- `toUserResponse` from `src/model/user-model.ts`: projects the stored
row to `{username, name}`. -/
def toUserResponse (u : User) : UserResponse :=
  { username := u.username, name := u.name }

/-- Projection of a contact row to its response body. -/
def toContactResponse (c : Contact) : ContactResponse :=
  { id := c.id, first_name := c.first_name, last_name := c.last_name,
    email := c.email, phone := c.phone }

/-- Modelled from the spec: the salted adaptive password hash
(`Bun.password.hash` with bcrypt, an external collaborator outside this
repository).  Modelled as an injective tagging function. -/
def hashPassword (pw : String) : String :=
  "bcrypt$" ++ pw

/-- Modelled from the spec: the hash library's verify function, which
checks a plaintext password against a stored hash. -/
def verifyPassword (pw stored : String) : Bool :=
  stored == hashPassword pw

/-- Modelled from the spec: session-token issuance at login (an opaque
non-empty credential string, `crypto.randomUUID()` in the real service,
which is not under `src/`).  The seed stands for the randomness source. -/
def genToken (seed : Nat) : String :=
  "uuid-" ++ toString seed

/-- `findFirst` on the user table by username. -/
def findUser (st : AppState) (uname : String) : Option User :=
  st.users.find? (fun u => u.username == uname)

/-- `findFirst` on the user table by stored session token. -/
def findUserByToken (st : AppState) (tok : String) : Option User :=
  st.users.find? (fun u => u.token == some tok)

/-- `update` on the user table: replaces every row whose username matches
the new row's username. -/
def storeUser (st : AppState) (u : User) : AppState :=
  { st with users := st.users.map (fun v => if v.username == u.username then u else v) }

/-- Modelled from the spec: `UserService.register` (service file not under
`src/`).  Validation requires non-empty username, password and name (400 on
failure); a duplicate username is a 400; otherwise the password is hashed
and the row inserted with no token. -/
def register (st : AppState) (req : RegisterUserRequest) :
    Except ApiError (UserResponse × AppState) :=
  if req.username == "" || req.password == "" || req.name == "" then
    .error ⟨400, "Validation error"⟩
  else if (st.users.any (fun u => u.username == req.username)) then
    .error ⟨400, "Username already exists"⟩
  else
    let u : User := ⟨req.username, req.name, hashPassword req.password, none⟩
    .ok (toUserResponse u, { st with users := st.users ++ [u] })

/-- Modelled from the spec: `UserService.login` (service file not under
`src/`).  An unknown username and a password-hash mismatch both yield the
same 401 error; on success a fresh token is stored on the row and
returned. -/
def login (st : AppState) (req : LoginUserRequest) (newToken : String) :
    Except ApiError (LoginResponse × AppState) :=
  match findUser st req.username with
  | none => .error ⟨401, "Username or password is wrong"⟩
  | some u =>
    if verifyPassword req.password u.password then
      let u' : User := { u with token := some newToken }
      .ok (⟨u.username, u.name, newToken⟩, storeUser st u')
    else
      .error ⟨401, "Username or password is wrong"⟩

/-- Modelled from the spec: `UserService.update` (service file not under
`src/`).  Partial patch: a present-but-empty field fails validation (400);
a present name replaces the stored name; a present password is re-hashed;
an omitted field keeps its prior value. -/
def updateUserService (st : AppState) (u : User) (req : UpdateUserRequest) :
    Except ApiError (UserResponse × AppState) :=
  if req.name == some "" || req.password == some "" then
    .error ⟨400, "Validation error"⟩
  else
    let u' : User :=
      { u with
        name := req.name.getD u.name,
        password := match req.password with
          | some p => hashPassword p
          | none => u.password }
    .ok (toUserResponse u', storeUser st u')

/-- Modelled from the spec: `UserService.logout` (service file not under
`src/`).  Clears the stored token on the authenticated user's row and
reports `true`. -/
def logout (st : AppState) (u : User) : Bool × AppState :=
  (true, storeUser st { u with token := none })

/-- Modelled from the spec: the auth middleware (middleware file not under
`src/`).  A missing `Authorization` header, or a header value matching no
user's stored token, fails closed with 401; otherwise the matched user is
attached to the request context. -/
def authenticate (st : AppState) (authHeader : Option String) :
    Except ApiError User :=
  match authHeader with
  | none => .error ⟨401, "Unauthorized"⟩
  | some tok =>
    match findUserByToken st tok with
    | none => .error ⟨401, "Unauthorized"⟩
    | some u => .ok u

/-- Whether the first character list starts the second. -/
def charsStart : List Char → List Char → Bool
  | [], _ => true
  | _ :: _, [] => false
  | p :: ps, c :: cs => p == c && charsStart ps cs

/-- Whether the first character list occurs inside the second. -/
def charsInside (pat : List Char) : List Char → Bool
  | [] => charsStart pat []
  | c :: cs => charsStart pat (c :: cs) || charsInside pat cs

/-- Boolean substring containment, the semantics of a SQL
`contains`-mode filter on a string column. -/
def strContains (s pat : String) : Bool :=
  charsInside pat.toList s.toList

/-- Modelled from the spec: the search filters (service file not under
`src/`).  `name` matches as a substring of first or last name, `email` and
`phone` as substrings of their columns; an absent filter matches every
row; a null column never matches a present filter. -/
def matchesSearch (req : SearchContactRequest) (c : Contact) : Bool :=
  (match req.name with
    | none => true
    | some n =>
      strContains c.first_name n ||
        (match c.last_name with
          | some l => strContains l n
          | none => false)) &&
  (match req.email with
    | none => true
    | some e =>
      match c.email with
      | some em => strContains em e
      | none => false) &&
  (match req.phone with
    | none => true
    | some p =>
      match c.phone with
      | some ph => strContains ph p
      | none => false)

/-- `findFirst` on the contact table scoped by owner: the row with the
given id whose owning username matches, if any. -/
def findContact (st : AppState) (uname : String) (id : Nat) : Option Contact :=
  st.contacts.find? (fun c => c.id == id && c.username == uname)

/-- Modelled from the spec: `ContactService.create` (service file not
under `src/`).  `first_name` must be non-empty (400 on failure); optional
fields default to null; the row is owned by the authenticated user. -/
def contactCreate (st : AppState) (u : User) (req : CreateContactRequest) :
    Except ApiError (ContactResponse × AppState) :=
  if req.first_name == "" then
    .error ⟨400, "Validation error"⟩
  else
    let c : Contact :=
      ⟨st.nextContactId, req.first_name, req.last_name, req.email, req.phone, u.username⟩
    .ok (toContactResponse c,
      { st with contacts := st.contacts ++ [c], nextContactId := st.nextContactId + 1 })

/-- Modelled from the spec: `ContactService.get` (service file not under
`src/`).  An ownership-scoped lookup; a missing row and a row owned by
another user both surface as 404. -/
def contactGet (st : AppState) (u : User) (id : Nat) :
    Except ApiError ContactResponse :=
  match findContact st u.username id with
  | none => .error ⟨404, "Contact is not found"⟩
  | some c => .ok (toContactResponse c)

/-- `update` on the contact table: replaces the row with the new row's id. -/
def storeContact (st : AppState) (c : Contact) : AppState :=
  { st with contacts := st.contacts.map (fun d => if d.id == c.id then c else d) }

/-- Modelled from the spec: `ContactService.update` (service file not
under `src/`).  Validation as for create; the ownership-scoped lookup
yields 404 for a missing or foreign row; otherwise the optional fields are
fully replaced. -/
def contactUpdate (st : AppState) (u : User) (id : Nat) (req : CreateContactRequest) :
    Except ApiError (ContactResponse × AppState) :=
  if req.first_name == "" then
    .error ⟨400, "Validation error"⟩
  else
    match findContact st u.username id with
    | none => .error ⟨404, "Contact is not found"⟩
    | some c =>
      let c' : Contact :=
        { c with first_name := req.first_name, last_name := req.last_name,
                 email := req.email, phone := req.phone }
      .ok (toContactResponse c', storeContact st c')

/-- Modelled from the spec: `ContactService.delete` (service file not
under `src/`).  404 for a missing or foreign row; otherwise the row is
removed and `true` reported. -/
def contactDelete (st : AppState) (u : User) (id : Nat) :
    Except ApiError (Bool × AppState) :=
  match findContact st u.username id with
  | none => .error ⟨404, "Contact is not found"⟩
  | some c =>
    .ok (true, { st with contacts := st.contacts.filter (fun d => !(d.id == c.id)) })

/-- The search result: one page of rows plus the paging metadata. -/
structure SearchResult where
  data : List ContactResponse
  paging : Paging
deriving Repr, DecidableEq

/-- Modelled from the spec: `ContactService.search` (service file not
under `src/`).  Rows are scoped to the caller and filtered; the page is
the `size`-wide slice starting at `(page - 1) * size`; `total_page` is
`ceil(total_matching / size)`; `current_page` echoes the request. -/
def contactSearch (st : AppState) (u : User) (req : SearchContactRequest) :
    SearchResult :=
  let matching := st.contacts.filter
    (fun c => c.username == u.username && matchesSearch req c)
  let total := matching.length
  { data := ((matching.drop ((req.page - 1) * req.size)).take req.size).map toContactResponse,
    paging :=
      { current_page := req.page, size := req.size,
        total_page := (total + req.size - 1) / req.size } }

/-- The payload carried by a successful `{data: ...}` envelope. -/
inductive Payload
  | user (u : UserResponse)
  | loginUser (u : LoginResponse)
  | bool (b : Bool)
  | contact (c : ContactResponse)
  | page (r : SearchResult)
deriving Repr, DecidableEq

/-- The uniform JSON envelope body: `{data: ...}` or `{errors: ...}`. -/
inductive ResponseBody
  | data (p : Payload)
  | errors (msg : String)
deriving Repr, DecidableEq

/-- An HTTP response: status code plus envelope body. -/
structure Response where
  status : Nat
  body : ResponseBody
deriving Repr, DecidableEq

/-- The error-envelope middleware's rendering of a domain error. -/
def errorResponse (e : ApiError) : Response :=
  ⟨e.status, .errors e.message⟩

/-- Rendering of a successful payload: status 200 with a data envelope. -/
def okResponse (p : Payload) : Response :=
  ⟨200, .data p⟩

/-- Folds a service result into a response and the resulting state: an
error leaves the store untouched. -/
def render (st : AppState) (r : Except ApiError (Payload × AppState)) :
    Response × AppState :=
  match r with
  | .error e => (errorResponse e, st)
  | .ok (p, st') => (okResponse p, st')

/-- HTTP methods used by the user controller. -/
inductive Method
  | get | post | patch | put | delete
deriving Repr, DecidableEq

/-- The parsed JSON body of a request to a user route (`c.req.json()`
cast to the route's request type). -/
inductive UserBody
  | register (r : RegisterUserRequest)
  | login (r : LoginUserRequest)
  | update (r : UpdateUserRequest)
  | empty
deriving Repr, DecidableEq

/-- Runs the auth middleware and, on success, hands the attached user to
the route handler; on failure the handler never runs and the 401 error
envelope is returned with the store untouched. -/
def runProtected (st : AppState) (authHeader : Option String)
    (handler : User → AppState → Response × AppState) : Response × AppState :=
  match authenticate st authHeader with
  | .error e => (errorResponse e, st)
  | .ok u => handler u st

/-- The protected user routes, dispatched after the middleware exactly as
registered in `src/controller/user-controller.ts`: GET, PATCH and DELETE
on `/api/users/current`. -/
def protectedUserHandler (m : Method) (path : String) (body : UserBody) :
    User → AppState → Response × AppState :=
  fun u st =>
    if m == .get && path == "/api/users/current" then
      (okResponse (.user (toUserResponse u)), st)
    else if m == .patch && path == "/api/users/current" then
      match body with
      | .update r => render st ((updateUserService st u r).map (fun (p, s) => (.user p, s)))
      | _ => (errorResponse ⟨400, "Bad request"⟩, st)
    else if m == .delete && path == "/api/users/current" then
      let (b, st') := logout st u
      (okResponse (.bool b), st')
    else
      (⟨404, .errors "Not Found"⟩, st)

/-- The user controller from `src/controller/user-controller.ts`, in
registration order: `POST /api/users` and `POST /api/users/login` are
matched before `userController.use(authMiddleware)` installs the
middleware, so they never consult the `Authorization` header; every route
after that line runs behind `runProtected`.  `tokenSeed` feeds the token
issuance on login. -/
def handleUserRequest (st : AppState) (m : Method) (path : String)
    (authHeader : Option String) (body : UserBody) (tokenSeed : Nat) :
    Response × AppState :=
  if m == .post && path == "/api/users" then
    match body with
    | .register r => render st ((register st r).map (fun (p, s) => (.user p, s)))
    | _ => (errorResponse ⟨400, "Bad request"⟩, st)
  else if m == .post && path == "/api/users/login" then
    match body with
    | .login r => render st ((login st r (genToken tokenSeed)).map (fun (p, s) => (.loginUser p, s)))
    | _ => (errorResponse ⟨400, "Bad request"⟩, st)
  else
    runProtected st authHeader (protectedUserHandler m path body)

/-- The matching rows of a search before paging: scoped to the caller and
filtered. -/
def searchMatching (st : AppState) (u : User) (req : SearchContactRequest) :
    List Contact :=
  st.contacts.filter (fun c => c.username == u.username && matchesSearch req c)

/-- The user row inserted by the test fixture (`UserTest.create`):
username/name/password `test`, token `test`. -/
def testUser : User := ⟨"test", "test", hashPassword "test", some "test"⟩

/-- A second tenant, for the ownership-isolation scenarios. -/
def otherUser : User := ⟨"budi", "Budi", hashPassword "rahasia", some "budi-token"⟩

/-- The contact row inserted by the test fixture (`ContactTest.create`). -/
def testContact : Contact :=
  ⟨1, "Eko", some "Kurniawan", some "test@gmail.com", some "123123", "test"⟩

/-- A store holding both tenants and one contact owned by `test`. -/
def testState : AppState := ⟨[testUser, otherUser], [testContact], 2⟩

/-- The i-th of the 25 identical fixture contacts (`ContactTest.createMany`). -/
def mkTestContact (i : Nat) : Contact :=
  ⟨i, "Eko", some "Kurniawan", some "test@gmail.com", some "123123", "test"⟩

/-- The search-test store: 25 contacts owned by `test`. -/
def testState25 : AppState := ⟨[testUser], (List.range 25).map mkTestContact, 25⟩

/-- When a token is held by `u` and by no other row, the token lookup
resolves to `u`. -/
lemma findByToken_unique (l : List User) (t : String) (u : User)
    (hu : u ∈ l) (ht : u.token = some t)
    (huniq : ∀ v ∈ l, v.token = some t → v = u) :
    l.find? (fun v => v.token == some t) = some u := by
  induction l with
  | nil => cases hu
  | cons v vs ih =>
    by_cases hv : v.token = some t
    · have hvu : v = u := huniq v (List.mem_cons_self v vs) hv
      subst hvu
      exact List.find?_cons_of_pos _ (by simp [hv])
    · rw [List.find?_cons_of_neg _ (by simpa using hv)]
      have hu' : u ∈ vs := by
        rcases List.mem_cons.1 hu with h | h
        · exact absurd (h ▸ ht) hv
        · exact h
      exact ih hu' (fun w hw hwt => huniq w (List.mem_cons_of_mem v hw) hwt)

/-- After replacing every row of `u'.username` by a row not holding token
`t`, no row holds `t`, provided every previous holder had that username. -/
lemma findByToken_clear (l : List User) (t : String) (u' : User)
    (hu' : u'.token ≠ some t)
    (hall : ∀ v ∈ l, v.token = some t → v.username = u'.username) :
    (l.map (fun v => if v.username == u'.username then u' else v)).find?
      (fun v => v.token == some t) = none := by
  rw [List.find?_eq_none]
  intro x hx
  rcases List.mem_map.1 hx with ⟨v, hv, rfl⟩
  by_cases h : (v.username == u'.username) = true
  · simp only [h, if_true, beq_iff_eq]
    exact hu'
  · simp only [h, if_false, Bool.false_eq_true, beq_iff_eq]
    intro hvt
    exact h (by simp [hall v hv hvt])

/-- Replacing the row found by a username lookup with a row of the same
username makes the lookup return the replacement. -/
lemma findUser_replace (l : List User) (uname : String) (u u' : User)
    (h : l.find? (fun v => v.username == uname) = some u)
    (hu' : u'.username = u.username) :
    (l.map (fun v => if v.username == u'.username then u' else v)).find?
      (fun v => v.username == uname) = some u' := by
  have huname : u.username = uname := by simpa using List.find?_some h
  induction l with
  | nil => simp [List.find?] at h
  | cons v vs ih =>
    by_cases hv : v.username = uname
    · have hfind := List.find?_cons_of_pos (p := fun w => w.username == uname) vs
        (by simpa using hv)
      rw [hfind] at h
      have hvu : v = u := Option.some.inj h
      have hcond : (v.username == u'.username) = true := by simp [hu', hvu]
      simp only [List.map_cons, hcond, if_true]
      exact List.find?_cons_of_pos _ (by simp [hu', huname])
    · have hcond : (v.username == u'.username) = false := by
        simp only [beq_eq_false_iff_ne, ne_eq, hu', huname]
        exact hv
      simp only [List.map_cons, hcond, if_false]
      rw [List.find?_cons_of_neg _ (by simpa using hv)]
      rw [List.find?_cons_of_neg _ (by simpa using hv)] at h
      exact ih h

/-- C3: for every contact get, update, or delete by id with a valid
token, when no stored contact has both the requested id and the caller as
owner — i.e. the id does not exist, or the row's owning username differs
from the authenticated user — all three operations return exactly the 404
error (so never 403, and a missing row and a foreign row are
indistinguishable). -/
theorem contact_ops_missing_or_foreign_404 (st : AppState) (u : User) (id : Nat)
    (h : ∀ c ∈ st.contacts, c.id = id → c.username ≠ u.username)
    (req : CreateContactRequest) (hreq : req.first_name ≠ "") :
    contactGet st u id = .error ⟨404, "Contact is not found"⟩ ∧
    contactUpdate st u id req = .error ⟨404, "Contact is not found"⟩ ∧
    contactDelete st u id = .error ⟨404, "Contact is not found"⟩ := by
  have hfind : findContact st u.username id = none := by
    rw [findContact, List.find?_eq_none]
    intro c hc
    simp only [Bool.and_eq_true, beq_iff_eq, not_and]
    intro hid
    exact h c hc hid
  refine ⟨?_, ?_, ?_⟩
  · rw [contactGet, hfind]
  · rw [contactUpdate, if_neg (by simpa using hreq), hfind]
  · rw [contactDelete, hfind]

/-- C3 witness: user `budi` addressing contact 1, which exists but is
owned by `test`, gets 404 from get, update and delete. -/
theorem contact_ops_missing_or_foreign_404_witness :
    contactGet testState otherUser 1 = .error ⟨404, "Contact is not found"⟩ ∧
    contactUpdate testState otherUser 1 ⟨"Eko", none, none, none⟩ =
      .error ⟨404, "Contact is not found"⟩ ∧
    contactDelete testState otherUser 1 = .error ⟨404, "Contact is not found"⟩ :=
  contact_ops_missing_or_foreign_404 testState otherUser 1 (by decide)
    ⟨"Eko", none, none, none⟩ (by decide)

/-- C4: an unknown username and a password that does not verify against
the stored hash produce the very same 401 response envelope (hence
indistinguishable to the caller); correct credentials yield a 200 data
envelope carrying the freshly issued, non-empty token. -/
theorem login_401_indistinguishable (st : AppState) (r : LoginUserRequest)
    (seed : Nat) :
    (findUser st r.username = none →
      handleUserRequest st .post "/api/users/login" none (.login r) seed =
        (errorResponse ⟨401, "Username or password is wrong"⟩, st)) ∧
    (∀ u, findUser st r.username = some u →
      verifyPassword r.password u.password = false →
      handleUserRequest st .post "/api/users/login" none (.login r) seed =
        (errorResponse ⟨401, "Username or password is wrong"⟩, st)) ∧
    (∀ u, findUser st r.username = some u →
      verifyPassword r.password u.password = true →
      (handleUserRequest st .post "/api/users/login" none (.login r) seed).1 =
        okResponse (.loginUser ⟨u.username, u.name, genToken seed⟩) ∧
      genToken seed ≠ "") := by
  have hred : handleUserRequest st .post "/api/users/login" none (.login r) seed =
      render st ((login st r (genToken seed)).map
        (fun p => (Payload.loginUser p.1, p.2))) := rfl
  refine ⟨?_, ?_, ?_⟩
  · intro hnone
    rw [hred, login, hnone]
    rfl
  · intro u hu hbad
    rw [hred, login, hu]
    simp only [hbad, Bool.false_eq_true, if_false]
    rfl
  · intro u hu hok
    refine ⟨?_, ?_⟩
    · rw [hred, login, hu]
      simp only [hok, if_true]
      rfl
    · intro hc
      have hlen : (genToken seed).length = 0 := by rw [hc]; rfl
      rw [genToken, String.length_append] at hlen
      have h5 : ("uuid-").length = 5 := rfl
      omega

/-- C4 witness: on the fixture store, logging in as the unknown `salah`
gives the same 401 envelope as a wrong password for `test`, and the
correct credentials return the issued token. -/
theorem login_401_indistinguishable_witness :
    (handleUserRequest testState .post "/api/users/login" none
        (.login ⟨"salah", "test"⟩) 7 =
      (errorResponse ⟨401, "Username or password is wrong"⟩, testState)) ∧
    (handleUserRequest testState .post "/api/users/login" none
        (.login ⟨"test", "salah"⟩) 7 =
      (errorResponse ⟨401, "Username or password is wrong"⟩, testState)) ∧
    (handleUserRequest testState .post "/api/users/login" none
        (.login ⟨"test", "test"⟩) 7).1 =
      okResponse (.loginUser ⟨"test", "test", genToken 7⟩) :=
  ⟨(login_401_indistinguishable testState ⟨"salah", "test"⟩ 7).1 (by decide),
   (login_401_indistinguishable testState ⟨"test", "salah"⟩ 7).2.1 testUser
     (by decide) (by decide),
   ((login_401_indistinguishable testState ⟨"test", "test"⟩ 7).2.2 testUser
     (by decide) (by decide)).1⟩

/-- C5: registering a username that some stored user already holds yields
a 400 error envelope and leaves the store — in particular the user list —
completely unchanged. -/
theorem register_duplicate_400_unchanged (st : AppState)
    (r : RegisterUserRequest) (seed : Nat)
    (h : ∃ u ∈ st.users, u.username = r.username) :
    ∃ msg, handleUserRequest st .post "/api/users" none (.register r) seed =
      (⟨400, .errors msg⟩, st) := by
  have hred : handleUserRequest st .post "/api/users" none (.register r) seed =
      render st ((register st r).map (fun p => (Payload.user p.1, p.2))) := rfl
  by_cases hval : (r.username == "" || r.password == "" || r.name == "") = true
  · exact ⟨"Validation error", by rw [hred, register, if_pos hval]; rfl⟩
  · have hany : (st.users.any (fun u => u.username == r.username)) = true := by
      rw [List.any_eq_true]
      rcases h with ⟨u, hu, he⟩
      exact ⟨u, hu, by simp [he]⟩
    exact ⟨"Username already exists",
      by rw [hred, register, if_neg hval, if_pos hany]; rfl⟩

/-- C5 witness: re-registering the fixture username `test` is rejected
with a 400 envelope and the store is untouched. -/
theorem register_duplicate_400_unchanged_witness :
    ∃ msg, handleUserRequest testState .post "/api/users" none
      (.register ⟨"test", "test", "test"⟩) 0 = (⟨400, .errors msg⟩, testState) :=
  register_duplicate_400_unchanged testState ⟨"test", "test", "test"⟩ 0
    ⟨testUser, by decide, by decide⟩

/-- C7: a request to a protected route with a missing `Authorization`
header, or with a header value matching no stored token, yields status
401 with an `{errors}` envelope and an unchanged store, and the result is
the same for every handler (the handler body never executes); when a user
holds the presented token, that user is handed to the handler. -/
theorem auth_middleware_gate (st : AppState) :
    (∀ h1 h2 : User → AppState → Response × AppState,
      runProtected st none h1 = (⟨401, .errors "Unauthorized"⟩, st) ∧
      runProtected st none h1 = runProtected st none h2) ∧
    (∀ t, findUserByToken st t = none →
      ∀ h1 h2 : User → AppState → Response × AppState,
        runProtected st (some t) h1 = (⟨401, .errors "Unauthorized"⟩, st) ∧
        runProtected st (some t) h1 = runProtected st (some t) h2) ∧
    (∀ t u, findUserByToken st t = some u →
      ∀ hdl : User → AppState → Response × AppState,
        runProtected st (some t) hdl = hdl u st) := by
  refine ⟨fun h1 h2 => ⟨rfl, rfl⟩, ?_, ?_⟩
  · intro t ht h1 h2
    have ha : authenticate st (some t) = .error ⟨401, "Unauthorized"⟩ := by
      simp only [authenticate, ht]
    constructor <;> simp only [runProtected, ha, errorResponse]
  · intro t u ht hdl
    have ha : authenticate st (some t) = .ok u := by
      simp only [authenticate, ht]
    simp only [runProtected, ha]

/-- C7 witness: on the fixture store, the unknown token `salah` is
rejected identically for two different handlers, and token `test`
attaches the fixture user. -/
theorem auth_middleware_gate_witness :
    runProtected testState (some "salah")
        (protectedUserHandler .get "/api/users/current" .empty) =
      (⟨401, .errors "Unauthorized"⟩, testState) ∧
    runProtected testState (some "salah")
        (protectedUserHandler .get "/api/users/current" .empty) =
      runProtected testState (some "salah") (fun _ s => (okResponse (.bool true), s)) ∧
    runProtected testState (some "test")
        (protectedUserHandler .get "/api/users/current" .empty) =
      protectedUserHandler .get "/api/users/current" .empty testUser testState :=
  ⟨((auth_middleware_gate testState).2.1 "salah" (by decide)
      (protectedUserHandler .get "/api/users/current" .empty)
      (fun _ s => (okResponse (.bool true), s))).1,
   ((auth_middleware_gate testState).2.1 "salah" (by decide)
      (protectedUserHandler .get "/api/users/current" .empty)
      (fun _ s => (okResponse (.bool true), s))).2,
   (auth_middleware_gate testState).2.2 "test" testUser (by decide)
     (protectedUserHandler .get "/api/users/current" .empty)⟩

/-- C8: a successful contact creation whose body carries only a
(non-empty) `first_name` responds with that `first_name` and with
`last_name`, `email` and `phone` all null, and appends the corresponding
row. -/
theorem contact_create_only_first_name_nulls (st : AppState) (u : User)
    (fn : String) (hfn : fn ≠ "") :
    contactCreate st u ⟨fn, none, none, none⟩ =
      .ok (⟨st.nextContactId, fn, none, none, none⟩,
        { st with
          contacts := st.contacts ++ [⟨st.nextContactId, fn, none, none, none, u.username⟩],
          nextContactId := st.nextContactId + 1 }) := by
  rw [contactCreate, if_neg (by simpa using hfn)]
  rfl

/-- C8 witness: creating `{first_name: "Eko"}` on the fixture store yields
null `last_name`, `email` and `phone` in the response. -/
theorem contact_create_only_first_name_nulls_witness :
    contactCreate testState testUser ⟨"Eko", none, none, none⟩ =
      .ok (⟨2, "Eko", none, none, none⟩,
        { testState with
          contacts := testState.contacts ++ [⟨2, "Eko", none, none, none, "test"⟩],
          nextContactId := 3 }) :=
  contact_create_only_first_name_nulls testState testUser "Eko" (by decide)

/-- C1: with a valid session token held by exactly one user, protected
routes succeed before logout; the logout request succeeds with
`{data: true}` and clears the stored token; and afterwards every protected
request carrying that same token — any handler, and in particular a second
logout — returns the 401 error envelope. -/
theorem logout_invalidates_token (st : AppState) (u : User) (t : String)
    (hu : u ∈ st.users) (ht : u.token = some t)
    (huniq : ∀ v ∈ st.users, v.token = some t → v = u) :
    authenticate st (some t) = .ok u ∧
    handleUserRequest st .get "/api/users/current" (some t) .empty 0 =
      (okResponse (.user (toUserResponse u)), st) ∧
    handleUserRequest st .delete "/api/users/current" (some t) .empty 0 =
      (okResponse (.bool true), storeUser st { u with token := none }) ∧
    (∀ hdl, runProtected (storeUser st { u with token := none }) (some t) hdl =
      (errorResponse ⟨401, "Unauthorized"⟩, storeUser st { u with token := none })) ∧
    handleUserRequest (storeUser st { u with token := none }) .delete
        "/api/users/current" (some t) .empty 0 =
      (errorResponse ⟨401, "Unauthorized"⟩, storeUser st { u with token := none }) := by
  have hfind : findUserByToken st t = some u :=
    findByToken_unique st.users t u hu ht huniq
  have hauth : authenticate st (some t) = .ok u := by
    simp only [authenticate, hfind]
  have hclear : findUserByToken (storeUser st { u with token := none }) t = none :=
    findByToken_clear st.users t { u with token := none } (by simp)
      (fun v hv hvt => by rw [huniq v hv hvt])
  have hauth2 : authenticate (storeUser st { u with token := none }) (some t) =
      .error ⟨401, "Unauthorized"⟩ := by
    simp only [authenticate, hclear]
  refine ⟨hauth, ?_, ?_, ?_, ?_⟩
  · have e : handleUserRequest st .get "/api/users/current" (some t) .empty 0 =
        runProtected st (some t) (protectedUserHandler .get "/api/users/current" .empty) := rfl
    rw [e]
    simp only [runProtected, hauth]
    rfl
  · have e : handleUserRequest st .delete "/api/users/current" (some t) .empty 0 =
        runProtected st (some t) (protectedUserHandler .delete "/api/users/current" .empty) := rfl
    rw [e]
    simp only [runProtected, hauth]
    rfl
  · intro hdl
    simp only [runProtected, hauth2, errorResponse]
  · have e : handleUserRequest (storeUser st { u with token := none }) .delete
        "/api/users/current" (some t) .empty 0 =
        runProtected (storeUser st { u with token := none }) (some t)
          (protectedUserHandler .delete "/api/users/current" .empty) := rfl
    rw [e]
    simp only [runProtected, hauth2, errorResponse]

/-- C1 witness: on the fixture store, token `test` authenticates, GET
succeeds, logout succeeds and clears the token, and afterwards both a
protected GET and a second logout with the same token give 401. -/
theorem logout_invalidates_token_witness :
    authenticate testState (some "test") = .ok testUser ∧
    handleUserRequest testState .get "/api/users/current" (some "test") .empty 0 =
      (okResponse (.user (toUserResponse testUser)), testState) ∧
    handleUserRequest testState .delete "/api/users/current" (some "test") .empty 0 =
      (okResponse (.bool true), storeUser testState { testUser with token := none }) ∧
    runProtected (storeUser testState { testUser with token := none }) (some "test")
        (protectedUserHandler .get "/api/users/current" .empty) =
      (errorResponse ⟨401, "Unauthorized"⟩,
       storeUser testState { testUser with token := none }) ∧
    handleUserRequest (storeUser testState { testUser with token := none }) .delete
        "/api/users/current" (some "test") .empty 0 =
      (errorResponse ⟨401, "Unauthorized"⟩,
       storeUser testState { testUser with token := none }) := by
  obtain ⟨h1, h2, h3, h4, h5⟩ :=
    logout_invalidates_token testState testUser "test" (by decide) (by decide) (by decide)
  exact ⟨h1, h2, h3, h4 _, h5⟩

/-- C2: the search paging metadata echoes the requested page and size and
reports `total_page` as the ceiling division of the number of matching
rows by the page size; an out-of-range page yields an empty data list
with the metadata untouched; zero matches yield `total_page = 0`; and the
spec's concrete scenarios hold on the 25-contact fixture store. -/
theorem search_paging_ceil (st : AppState) (u : User) (req : SearchContactRequest) :
    (contactSearch st u req).paging.current_page = req.page ∧
    (contactSearch st u req).paging.size = req.size ∧
    (contactSearch st u req).paging.total_page =
      (searchMatching st u req).length ⌈/⌉ req.size ∧
    (contactSearch st u req).data.length =
      min req.size ((searchMatching st u req).length - (req.page - 1) * req.size) ∧
    ((searchMatching st u req).length ≤ (req.page - 1) * req.size →
      (contactSearch st u req).data = []) ∧
    ((searchMatching st u req).length = 0 →
      (contactSearch st u req).paging.total_page = 0) ∧
    (contactSearch testState25 testUser ⟨none, none, none, 1, 10⟩).data.length = 10 ∧
    (contactSearch testState25 testUser ⟨none, none, none, 1, 10⟩).paging = ⟨1, 10, 3⟩ ∧
    (contactSearch testState25 testUser ⟨none, none, none, 1, 5⟩).paging.total_page = 5 ∧
    (contactSearch testState25 testUser ⟨none, none, none, 100, 5⟩).data = [] ∧
    (contactSearch testState25 testUser ⟨none, none, none, 100, 5⟩).paging = ⟨100, 5, 5⟩ := by
  refine ⟨rfl, rfl, ?_, ?_, ?_, ?_, by decide, by decide, by decide, by decide, by decide⟩
  · rw [Nat.ceilDiv_eq_add_pred_div]
    rfl
  · show ((((searchMatching st u req).drop ((req.page - 1) * req.size)).take
        req.size).map toContactResponse).length = _
    rw [List.length_map, List.length_take, List.length_drop]
  · intro h
    show ((((searchMatching st u req).drop ((req.page - 1) * req.size)).take
        req.size).map toContactResponse) = []
    rw [List.drop_eq_nil_of_le h, List.take_nil]
    rfl
  · intro h
    show ((searchMatching st u req).length + req.size - 1) / req.size = 0
    rw [h]
    rcases Nat.eq_zero_or_pos req.size with h0 | hpos
    · rw [h0]
    · exact Nat.div_eq_of_lt (by omega)

/-- C6: patching only `name` changes the stored name and leaves the
password hash byte-for-byte unchanged, so a later login with the old
password still succeeds; patching only `password` re-hashes and replaces
the password while the stored name keeps its prior value. -/
theorem update_partial_frame (st : AppState) (u : User) (n p pw tok : String)
    (hn : n ≠ "") (hp : p ≠ "") :
    updateUserService st u ⟨some n, none⟩ =
      .ok (⟨u.username, n⟩, storeUser st { u with name := n }) ∧
    updateUserService st u ⟨none, some p⟩ =
      .ok (⟨u.username, u.name⟩, storeUser st { u with password := hashPassword p }) ∧
    (findUser st u.username = some u → verifyPassword pw u.password = true →
      login (storeUser st { u with name := n }) ⟨u.username, pw⟩ tok =
        .ok (⟨u.username, n, tok⟩,
          storeUser (storeUser st { u with name := n })
            { u with name := n, token := some tok })) := by
  refine ⟨?_, ?_, ?_⟩
  · rw [updateUserService, if_neg (by simp [hn])]
    rfl
  · rw [updateUserService, if_neg (by simp [hp])]
    rfl
  · intro hf hv
    have hf' : findUser (storeUser st { u with name := n }) u.username =
        some { u with name := n } :=
      findUser_replace st.users u.username u { u with name := n } hf rfl
    simp only [login, hf', hv, if_true]

/-- C6 witness: on the fixture store, patching only the name to `Eko`
keeps the stored hash, patching only the password to `baru` keeps the
name, and login with the old password still succeeds after the name
patch. -/
theorem update_partial_frame_witness :
    updateUserService testState testUser ⟨some "Eko", none⟩ =
      .ok (⟨testUser.username, "Eko"⟩, storeUser testState { testUser with name := "Eko" }) ∧
    updateUserService testState testUser ⟨none, some "baru"⟩ =
      .ok (⟨testUser.username, testUser.name⟩,
        storeUser testState { testUser with password := hashPassword "baru" }) ∧
    login (storeUser testState { testUser with name := "Eko" })
        ⟨testUser.username, "test"⟩ "tk" =
      .ok (⟨testUser.username, "Eko", "tk"⟩,
        storeUser (storeUser testState { testUser with name := "Eko" })
          { testUser with name := "Eko", token := some "tk" }) := by
  obtain ⟨h1, h2, h3⟩ :=
    update_partial_frame testState testUser "Eko" "baru" "test" "tk"
      (by decide) (by decide)
  exact ⟨h1, h2, h3 (by decide) (by decide)⟩

/-- C9: `POST /api/users` and `POST /api/users/login` are dispatched
before the auth middleware, so their results never depend on the
`Authorization` header, and a valid registration succeeds with no header
at all; every user route registered after the middleware (GET, PATCH and
DELETE on `/api/users/current`) returns the 401 envelope whenever the
middleware rejects the header. -/
theorem user_routes_auth_exemption (st : AppState) (body : UserBody) (seed : Nat) :
    (∀ a, handleUserRequest st .post "/api/users" a body seed =
      handleUserRequest st .post "/api/users" none body seed) ∧
    (∀ a, handleUserRequest st .post "/api/users/login" a body seed =
      handleUserRequest st .post "/api/users/login" none body seed) ∧
    (∀ r : RegisterUserRequest, r.username ≠ "" → r.password ≠ "" → r.name ≠ "" →
      (st.users.any (fun v => v.username == r.username)) = false →
      handleUserRequest st .post "/api/users" none (.register r) seed =
        (okResponse (.user ⟨r.username, r.name⟩),
         { st with users := st.users ++ [⟨r.username, r.name, hashPassword r.password, none⟩] })) ∧
    (∀ m a, (m = Method.get ∨ m = Method.patch ∨ m = Method.delete) →
      authenticate st a = .error ⟨401, "Unauthorized"⟩ →
      handleUserRequest st m "/api/users/current" a body seed =
        (errorResponse ⟨401, "Unauthorized"⟩, st)) := by
  refine ⟨fun a => rfl, fun a => rfl, ?_, ?_⟩
  · intro r h1 h2 h3 hany
    have hred : handleUserRequest st .post "/api/users" none (.register r) seed =
        render st ((register st r).map (fun p => (Payload.user p.1, p.2))) := rfl
    rw [hred, register, if_neg (by simp [h1, h2, h3]), if_neg (by simp [hany])]
    rfl
  · intro m a hm hauth
    rcases hm with rfl | rfl | rfl
    · have e : handleUserRequest st .get "/api/users/current" a body seed =
          runProtected st a (protectedUserHandler .get "/api/users/current" body) := rfl
      rw [e]
      simp only [runProtected, hauth, errorResponse]
    · have e : handleUserRequest st .patch "/api/users/current" a body seed =
          runProtected st a (protectedUserHandler .patch "/api/users/current" body) := rfl
      rw [e]
      simp only [runProtected, hauth, errorResponse]
    · have e : handleUserRequest st .delete "/api/users/current" a body seed =
          runProtected st a (protectedUserHandler .delete "/api/users/current" body) := rfl
      rw [e]
      simp only [runProtected, hauth, errorResponse]

/-- C9 witness: on the fixture store, register and login give the same
result with and without a header, a fresh registration with no header
succeeds, and GET current with no header is 401. -/
theorem user_routes_auth_exemption_witness :
    handleUserRequest testState .post "/api/users" (some "whatever")
        (.register ⟨"fresh", "pw", "Fresh"⟩) 0 =
      handleUserRequest testState .post "/api/users" none
        (.register ⟨"fresh", "pw", "Fresh"⟩) 0 ∧
    handleUserRequest testState .post "/api/users/login" (some "whatever")
        (.login ⟨"test", "test"⟩) 0 =
      handleUserRequest testState .post "/api/users/login" none
        (.login ⟨"test", "test"⟩) 0 ∧
    handleUserRequest testState .post "/api/users" none
        (.register ⟨"fresh", "pw", "Fresh"⟩) 0 =
      (okResponse (.user ⟨"fresh", "Fresh"⟩),
       { testState with
         users := testState.users ++ [⟨"fresh", "Fresh", hashPassword "pw", none⟩] }) ∧
    handleUserRequest testState .get "/api/users/current" none
        (.register ⟨"fresh", "pw", "Fresh"⟩) 0 =
      (errorResponse ⟨401, "Unauthorized"⟩, testState) := by
  obtain ⟨h1, -, h3, h4⟩ :=
    user_routes_auth_exemption testState (.register ⟨"fresh", "pw", "Fresh"⟩) 0
  obtain ⟨-, h2, -, -⟩ :=
    user_routes_auth_exemption testState (.login ⟨"test", "test"⟩) 0
  exact ⟨h1 (some "whatever"), h2 (some "whatever"),
    h3 ⟨"fresh", "pw", "Fresh"⟩ (by decide) (by decide) (by decide) (by decide),
    h4 .get none (Or.inl rfl) rfl⟩

/-- C10: `DELETE /api/users/current` is a logout, not an account
deletion: it renders `{data: true}`, only the token column of the user's
row changes, the row is still found afterwards with its username, name
and password hash intact, and the same credentials log in again. -/
theorem logout_preserves_account (st : AppState) (u : User) (pw tok : String)
    (hfind : findUser st u.username = some u)
    (hpw : verifyPassword pw u.password = true) :
    logout st u = (true, storeUser st { u with token := none }) ∧
    (∀ t, findUserByToken st t = some u →
      handleUserRequest st .delete "/api/users/current" (some t) .empty 0 =
        (okResponse (.bool true), storeUser st { u with token := none })) ∧
    findUser (storeUser st { u with token := none }) u.username =
      some { u with token := none } ∧
    login (storeUser st { u with token := none }) ⟨u.username, pw⟩ tok =
      .ok (⟨u.username, u.name, tok⟩,
        storeUser (storeUser st { u with token := none })
          { u with token := some tok }) := by
  have hf' : findUser (storeUser st { u with token := none }) u.username =
      some { u with token := none } :=
    findUser_replace st.users u.username u { u with token := none } hfind rfl
  refine ⟨rfl, ?_, hf', ?_⟩
  · intro t ht
    have hauth : authenticate st (some t) = .ok u := by
      simp only [authenticate, ht]
    have e : handleUserRequest st .delete "/api/users/current" (some t) .empty 0 =
        runProtected st (some t) (protectedUserHandler .delete "/api/users/current" .empty) := rfl
    rw [e]
    simp only [runProtected, hauth]
    rfl
  · simp only [login, hf', hpw, if_true]

/-- C10 witness: on the fixture store, logging out `test` keeps the row
(with its name and hash) and the old credentials log in again. -/
theorem logout_preserves_account_witness :
    logout testState testUser = (true, storeUser testState { testUser with token := none }) ∧
    handleUserRequest testState .delete "/api/users/current" (some "test") .empty 0 =
      (okResponse (.bool true), storeUser testState { testUser with token := none }) ∧
    findUser (storeUser testState { testUser with token := none }) testUser.username =
      some { testUser with token := none } ∧
    login (storeUser testState { testUser with token := none })
        ⟨testUser.username, "test"⟩ "tk" =
      .ok (⟨testUser.username, testUser.name, "tk"⟩,
        storeUser (storeUser testState { testUser with token := none })
          { testUser with token := some "tk" }) := by
  obtain ⟨h1, h2, h3, h4⟩ :=
    logout_preserves_account testState testUser "test" "tk" (by decide) (by decide)
  exact ⟨h1, h2 "test" (by decide), h3, h4⟩

end BunHono
